import Mathlib

/-!
# Verification of the rbdc driver core and its Turso/libSQL adapter

Shallow embedding of the parts of the `rbdc` repository that the frozen
claims are about:

* `src/util/exchange.rs` — placeholder exchange (`impl_exchange`)
* `rbdc-turso/src/value.rs` — value conversion and the JSON-text heuristic
* `rbdc-turso/src/row.rs` — destructive row reads
* `rbdc-turso/src/query_result.rs` and `rbdc-turso/src/connection/mod.rs`
  — exec results
* `rbdc-turso/tests/deviations/*` and `rbdc-turso/tests/conformance/release_gate.rs`
  — deviation registry, validator and release gate
* `rbdc-pool-fast/src/lib.rs` — pool `get_timeout` zero-duration special case
* `rbdc-turso/src/options/*` — connect-option validation
* `rbdc-pg/src/connection/establish.rs` — POSIX timezone formatting
* `src/types/timestamp.rs` — Timestamp round-trip through the host value

External crates (`rbs`, `libsql`, `serde_json`, `fastdate`) are not part of
the repository source; where a claim depends on them they are modelled from
the specification (marked `Modelled from the spec:`) or taken as opaque
parameters (the JSON parser is a parameter `jp : String → Option Value`).
-/

namespace RbdcSpec

/-- Modelled from the spec: the host dynamic value type `rbs::Value`
(spec §3 "Value"); the `rbs` crate is an external dependency whose source is
not under `src/`.  Variants are exactly the ones the spec lists: `Null`,
`Bool`, `I32`, `I64`, `U32`, `U64`, `F32`, `F64`, `String`, `Binary`,
`Array`, `Map` (insertion-ordered pairs) and `Ext (tag, inner)`.  Float
payloads are carried as opaque bit patterns (`Nat`); the code under
verification never inspects them. -/
inductive Value where
  | Null : Value
  | Bool (b : Bool) : Value
  | I32 (n : Int) : Value
  | I64 (n : Int) : Value
  | U32 (n : Nat) : Value
  | U64 (n : Nat) : Value
  | F32 (bits : Nat) : Value
  | F64 (bits : Nat) : Value
  | String (s : String) : Value
  | Binary (bytes : List Nat) : Value
  | Array (items : List Value) : Value
  | Map (pairs : List (Value × Value)) : Value
  | Ext (tag : String) (inner : Value) : Value

/-- `libsql::Value`: the five SQLite storage classes (external `libsql`
crate, modelled from its use in `rbdc-turso/src/value.rs`). -/
inductive LibsqlValue where
  | Null : LibsqlValue
  | Integer (n : Int) : LibsqlValue
  | Real (bits : Nat) : LibsqlValue
  | Text (s : String) : LibsqlValue
  | Blob (bytes : List Nat) : LibsqlValue
deriving DecidableEq

/-- `TursoDataType` from `rbdc-turso/src/value.rs`. -/
inductive TursoDataType where
  | Null : TursoDataType
  | Integer : TursoDataType
  | Real : TursoDataType
  | Text : TursoDataType
  | Blob : TursoDataType
deriving DecidableEq

/-- `TursoValue` from `rbdc-turso/src/value.rs`: a libsql value with
associated type metadata. -/
structure TursoValue where
  inner : LibsqlValue
  data_type : TursoDataType
deriving DecidableEq

/-- Rust `str::starts_with(prefix)`: a byte-prefix check, modelled on the
character content (equivalent for valid UTF-8). -/
def starts_with (s p : String) : Bool := p.data.isPrefixOf s.data

/-- Rust `str::ends_with(suffix)`: a byte-suffix check, modelled on the
character content. -/
def ends_with (s p : String) : Bool := p.data.isSuffixOf s.data

/-- Rust `str::is_empty` / `String::is_empty`. -/
def str_is_empty (s : String) : Bool := s.data.isEmpty

/-- `is_json_string` from `rbdc-turso/src/value.rs` (lines 202-206):
`s == "null" || (s.starts_with('{') && s.ends_with('}')) ||
(s.starts_with('[') && s.ends_with(']'))`. -/
def is_json_string (s : String) : Bool :=
  s == "null" ||
    (starts_with s "\x7b" && ends_with s "\x7d") ||
    (starts_with s "[" && ends_with s "]")

/-- `turso_value_to_rbs` from `rbdc-turso/src/value.rs` (lines 134-152).
`jp` models `serde_json::from_str::<Value>` (external crate): `some v` for
`Ok(v)`, `none` for a parse error.  Note this function, as defined in
`value.rs`, takes no `json_detect` flag: the JSON heuristic is applied
unconditionally to JSON-shaped text. -/
def turso_value_to_rbs (jp : String → Option Value) (tv : TursoValue) : Value :=
  match tv.inner with
  | LibsqlValue.Null => Value.Null
  | LibsqlValue.Integer n => Value.I64 n
  | LibsqlValue.Real f => Value.F64 f
  | LibsqlValue.Text s =>
      if is_json_string s then
        match jp s with
        | some v => v
        | none => Value.String s
      else Value.String s
  | LibsqlValue.Blob b => Value.Binary b

/-- `decode_text` from `rbdc-turso/src/types/str.rs`: JSON detection is
attempted only when `json_detect` is true; on parse failure (or when
detection is off) the text is returned as a plain `String`. -/
def decode_text (jp : String → Option Value) (s : String) (json_detect : Bool) : Value :=
  if json_detect && is_json_string s then
    match jp s with
    | some v => v
    | none => Value.String s
  else Value.String s

/-- `TursoColumn` from `rbdc-turso/src/column.rs` (name, ordinal and type
metadata). -/
structure TursoColumn where
  name : String
  ordinal : Nat
  type_info : TursoDataType
deriving DecidableEq

/-- `TursoRow` from `rbdc-turso/src/row.rs`: a vector of `Option<TursoValue>`
cells (consumed on access), shared column metadata and the `json_detect`
flag. -/
structure TursoRow where
  values : List (Option TursoValue)
  columns : List TursoColumn
  json_detect : Bool

/-- `TursoRow::get` from `rbdc-turso/src/row.rs` (lines 35-49), in explicit
state-passing form: the pair is (result, row after the call).  A successful
read takes the cell (`Option::take`), leaving `none` in an index-stable slot.

Note: `row.rs` writes the conversion call as
`turso_value_to_rbs(&tv, self.json_detect)`, but `value.rs` defines
`turso_value_to_rbs` with a single parameter and no flag; the embedding uses
the function as `value.rs` defines it (the only definition that exists),
which ignores `json_detect`. -/
def TursoRow.get (jp : String → Option Value) (row : TursoRow) (i : Nat) :
    Except String Value × TursoRow :=
  if row.values.length ≤ i then
    (Except.error ("column index " ++ toString i ++ " out of range (row has "
        ++ toString row.values.length ++ " columns)"), row)
  else
    match row.values[i]? with
    | some (some tv) =>
        (Except.ok (turso_value_to_rbs jp tv),
         { row with values := row.values.set i none })
    | _ =>
        (Except.error ("column index " ++ toString i ++ " already consumed"), row)

/-! ## Placeholder exchange (`src/util/exchange.rs`) -/

/-- `impl_exchange` from `src/util/exchange.rs` (lines 2-39), modelled on the
character/byte sequence of the SQL text.  The source scans the byte array
with an index and copies the unchanged stretches in batches
(`result.push_str(&sql[start..i])`); batching only optimises the copying and
leaves the output unchanged, so the embedding performs the same scan
structurally: `\?` emits a literal `?` and consumes both bytes; an unescaped
`?` emits `start_str` followed by the decimal representation of the counter
(`itoa` = `Nat.repr`) and increments it; every other byte is copied. -/
def impl_exchange (start_str : List Char) : Nat → List Char → List Char
  | _, [] => []
  | idx, '\\' :: '?' :: rest => '?' :: impl_exchange start_str idx rest
  | idx, '?' :: rest =>
      start_str ++ (Nat.repr idx).data ++ impl_exchange start_str (idx + 1) rest
  | idx, c :: rest => c :: impl_exchange start_str idx rest

/-- Number of unescaped `?` bytes in the input, under the same scan as
`impl_exchange` (a `?` immediately preceded by an unconsumed `\` is escaped). -/
def countUnescaped : List Char → Nat
  | [] => 0
  | '\\' :: '?' :: rest => countUnescaped rest
  | '?' :: rest => countUnescaped rest + 1
  | _ :: rest => countUnescaped rest

/-- The index sequence `n, n+1, …, n+k-1` (spec-side definition). -/
def idxRange : Nat → Nat → List Nat
  | _, 0 => []
  | n, k + 1 => n :: idxRange (n + 1) k

/-- Spec-side rendering: scan the SQL text and substitute, for each
unescaped `?` in left-to-right order, the next index from the given list
(prefix followed by its decimal representation); `\?` becomes a literal `?`
and every other byte is copied.  Comparing `impl_exchange` against
`renderWith` applied to `idxRange n (countUnescaped s)` states the claim's
counting law. -/
def renderWith (start_str : List Char) : List Nat → List Char → List Char
  | _, [] => []
  | is, '\\' :: '?' :: rest => '?' :: renderWith start_str is rest
  | i :: is, '?' :: rest =>
      start_str ++ (Nat.repr i).data ++ renderWith start_str is rest
  | [], '?' :: rest => renderWith start_str [] rest
  | is, c :: rest => c :: renderWith start_str is rest

/-! ## Exec results (`rbdc-turso/src/query_result.rs`, `connection/mod.rs`) -/

/-- `rbdc::db::ExecResult`: rows affected plus a backend-dependent
last-insert id. -/
structure ExecResult where
  rows_affected : Nat
  last_insert_id : Value

/-- `TursoQueryResult` from `rbdc-turso/src/query_result.rs`: row-change
count (`u64`, modelled as `Nat`) and last inserted rowid (`i64`, modelled as
`Int`). -/
structure TursoQueryResult where
  changes : Nat
  last_insert_rowid : Int

/-- `TursoQueryResult::new`. -/
def TursoQueryResult.new (changes : Nat) (last_insert_rowid : Int) : TursoQueryResult :=
  ⟨changes, last_insert_rowid⟩

/-- `TursoQueryResult::to_exec_result` (query_result.rs lines 45-50): the
last-insert id is stored as `Value::I64` to preserve signed rowid
semantics. -/
def TursoQueryResult.to_exec_result (r : TursoQueryResult) : ExecResult :=
  { rows_affected := r.changes, last_insert_id := Value.I64 r.last_insert_rowid }

/-- Rust `i64 as u64`: two's-complement reinterpretation, i.e. reduction
modulo `2^64` (total on `Int`; faithful on the `i64` range). -/
def i64_to_u64 (n : Int) : Nat := (n % (2 : Int) ^ 64).toNat

/-- The `ExecResult` built by `TursoConnection::exec` in
`rbdc-turso/src/connection/mod.rs` (lines 124-147): given the native
`execute` row-change count and `last_insert_rowid()`, it returns
`ExecResult { rows_affected, last_insert_id: Value::U64(last_id as u64) }`.
(This trait implementation does not go through
`TursoQueryResult::to_exec_result`.) -/
def exec_mod_result (rows_affected : Nat) (last_id : Int) : ExecResult :=
  { rows_affected := rows_affected, last_insert_id := Value.U64 (i64_to_u64 last_id) }

/-! ## Fast pool `get_timeout` (`rbdc-pool-fast/src/lib.rs`) -/

/-- Modelled from the spec: the pool state counters (spec §3 "Pool"); the
`fast_pool` crate that owns this state is an external dependency. -/
structure FastPoolState where
  max_open : Nat
  connections : Nat
  in_use : Nat
  idle : Nat
  waits : Nat
  connecting : Nat
  checking : Nat

/-- The zero-duration special case of `FastPool::get_timeout`
(`rbdc-pool-fast/src/lib.rs` lines 63-82), durations in milliseconds: with
`d == 0`, if `in_use < max_open` the request proceeds with a default
10-second window (`Duration::from_secs(10)`); otherwise it fails fast with
the pool's timeout error.  A nonzero `d` is passed through to the inner
pool's `get_timeout` unchanged (the asynchronous wait itself lives in the
external `fast_pool` crate). -/
def FastPool.get_timeout_request (st : FastPoolState) (d : Nat) : Except String Nat :=
  if d = 0 then
    if st.in_use < st.max_open then Except.ok 10000
    else Except.error "Time out in the connection pool"
  else Except.ok d

/-! ## Connect options (`rbdc-turso/src/options/mod.rs`, `options/connect.rs`) -/

/-- `TursoConnectOptions` from `rbdc-turso/src/options/mod.rs`. -/
structure TursoConnectOptions where
  url : String
  auth_token : Option String
  in_memory : Bool
  json_detect : Bool

/-- `TursoConnectOptions::is_remote`. -/
def TursoConnectOptions.is_remote (o : TursoConnectOptions) : Bool :=
  starts_with o.url "libsql://" || starts_with o.url "https://" || starts_with o.url "http://"

/-- The `has_auth_token` computation inside `validate`:
`auth_token.as_deref().map(str::trim).filter(|t| !t.is_empty()).is_some()`. -/
def TursoConnectOptions.has_auth_token (o : TursoConnectOptions) : Bool :=
  ((o.auth_token.map String.trim).filter (fun t => ! str_is_empty t)).isSome

/-- `TursoConnectOptions::validate` (options/mod.rs lines 126-148). -/
def TursoConnectOptions.validate (o : TursoConnectOptions) : Except String Unit :=
  if str_is_empty o.url then
    Except.error "Turso URL must not be empty. Provide a valid libsql:// URL, file path, or :memory:"
  else if o.is_remote && !o.has_auth_token then
    Except.error "auth_token is required and must not be empty for remote Turso connections (libsql:// or https:// URLs)"
  else Except.ok ()

/-- `TursoConnectOptions::connect_turso` (options/connect.rs lines 12-14):
`self.validate()?` runs first; only then is the connection attempted.  The
libsql builder machinery is external, modelled as the opaque `attempt`. -/
def connect_turso {α : Type} (attempt : TursoConnectOptions → Except String α)
    (o : TursoConnectOptions) : Except String α :=
  match o.validate with
  | Except.error e => Except.error e
  | Except.ok _ => attempt o

/-! ## PostgreSQL startup timezone (`rbdc-pg/src/connection/establish.rs`) -/

/-- Rust `format!("{:02}", n)` for a nonnegative value: decimal digits,
zero-padded on the left to a minimum width of two. -/
def pad2 (n : Nat) : String := if n < 10 then "0" ++ toString n else toString n

/-- `format_timezone_offset` from `rbdc-pg/src/connection/establish.rs`
(lines 15-28).  The offset is an `i32` count of seconds east of UTC;
`offset_sec.abs()` is modelled by `Int.natAbs` (in Rust, `i32::MIN.abs()`
panics, so the function is meaningful on `-2^31 < offset_sec < 2^31`). -/
def format_timezone_offset (offset_sec : Int) : String :=
  if offset_sec = 0 then "UTC"
  else
    let sign := if offset_sec < 0 then "+" else "-"
    let abs_sec := offset_sec.natAbs
    let hours := abs_sec / 3600
    let minutes := (abs_sec % 3600) / 60
    sign ++ pad2 hours ++ ":" ++ pad2 minutes

/-! ## Deviation registry, validator and release gate
(`rbdc-turso/tests/deviations/registry.rs`, `validator.rs`,
`tests/conformance/release_gate.rs`).  The Rust functions read the static
`REGISTRY`; the embedding takes the registry as an explicit argument so the
gate can be stated for every registry, and `REGISTRY` itself is embedded as
a concrete list. -/

/-- `ApprovalStatus` from `tests/deviations/registry.rs`. -/
inductive ApprovalStatus where
  | Approved : ApprovalStatus
  | Proposed : ApprovalStatus
  | Rejected : ApprovalStatus
  | NotADeviation : ApprovalStatus
deriving DecidableEq

/-- `Deviation` from `tests/deviations/registry.rs`. -/
structure Deviation where
  id : String
  title : String
  linked_scenarios : List String
  status : ApprovalStatus
  summary : String
  user_impact : String
  rationale : String
deriving DecidableEq

/-- `ValidationResult` from `tests/deviations/validator.rs`. -/
structure ValidationResult where
  errors : List String
  warnings : List String
  approved_count : Nat
  proposed_count : Nat
  not_deviation_count : Nat
  rejected_count : Nat

/-- `ValidationResult::is_valid`. -/
def ValidationResult.is_valid (v : ValidationResult) : Bool := v.errors.isEmpty

/-- `ValidationResult::is_release_ready`. -/
def ValidationResult.is_release_ready (v : ValidationResult) : Bool :=
  v.is_valid && v.proposed_count == 0

/-- Accumulator state of the `validate_registry` loop: errors and warnings
in push order, the `seen_ids` set, the scenario→owner map (as an association
list) and the four status counters. -/
structure VState where
  errors : List String
  warnings : List String
  seen_ids : List String
  scenario_owners : List (String × String)
  approved_count : Nat
  proposed_count : Nat
  not_deviation_count : Nat
  rejected_count : Nat

/-- The inner `for scenario in dev.linked_scenarios` loop of
`validate_registry`: a scenario already claimed by another deviation is an
error, otherwise it is recorded with the current deviation as owner. -/
def claimScenarios (devId : String) : List String →
    List String × List (String × String) → List String × List (String × String)
  | [], acc => acc
  | s :: rest, (errs, owners) =>
      match owners.lookup s with
      | some owner =>
          claimScenarios devId rest
            (errs ++ ["Scenario " ++ s ++ " is claimed by both " ++ owner ++ " and " ++ devId],
             owners)
      | none => claimScenarios devId rest (errs, owners ++ [(s, devId)])

/-- One iteration of the `for dev in REGISTRY` loop of `validate_registry`
(`tests/deviations/validator.rs` lines 38-126), with the checks in source
order: duplicate id, `DEV-` prefix of the id, at least one linked scenario,
scenario ownership, non-empty text fields, then the status counters plus the
`Proposed` warning and `Rejected` error. -/
def validateDev (st : VState) (dev : Deviation) : VState :=
  let (errors, seen_ids) :=
    if st.seen_ids.contains dev.id then
      (st.errors ++ ["Duplicate deviation ID: " ++ dev.id], st.seen_ids)
    else (st.errors, st.seen_ids ++ [dev.id])
  let errors :=
    if starts_with dev.id "DEV-" then errors
    else errors ++ [dev.id ++ ": ID must start with \x27DEV-\x27, got \x27" ++ dev.id ++ "\x27"]
  let errors :=
    if dev.linked_scenarios.isEmpty then
      errors ++ [dev.id ++ ": must have at least one linked scenario"]
    else errors
  let (errors, scenario_owners) :=
    claimScenarios dev.id dev.linked_scenarios (errors, st.scenario_owners)
  let errors :=
    if str_is_empty dev.title then errors ++ [dev.id ++ ": title must not be empty"] else errors
  let errors :=
    if str_is_empty dev.summary then errors ++ [dev.id ++ ": summary must not be empty"] else errors
  let errors :=
    if str_is_empty dev.user_impact then
      errors ++ [dev.id ++ ": user_impact must not be empty"]
    else errors
  let errors :=
    if str_is_empty dev.rationale then
      errors ++ [dev.id ++ ": rationale must not be empty"]
    else errors
  match dev.status with
  | ApprovalStatus.Approved =>
      { errors := errors, warnings := st.warnings, seen_ids := seen_ids,
        scenario_owners := scenario_owners,
        approved_count := st.approved_count + 1, proposed_count := st.proposed_count,
        not_deviation_count := st.not_deviation_count, rejected_count := st.rejected_count }
  | ApprovalStatus.Proposed =>
      { errors := errors,
        warnings := st.warnings ++
          [dev.id ++ ": PROPOSED — blocks release until resolved (" ++ dev.title ++ ")"],
        seen_ids := seen_ids, scenario_owners := scenario_owners,
        approved_count := st.approved_count, proposed_count := st.proposed_count + 1,
        not_deviation_count := st.not_deviation_count, rejected_count := st.rejected_count }
  | ApprovalStatus.NotADeviation =>
      { errors := errors, warnings := st.warnings, seen_ids := seen_ids,
        scenario_owners := scenario_owners,
        approved_count := st.approved_count, proposed_count := st.proposed_count,
        not_deviation_count := st.not_deviation_count + 1, rejected_count := st.rejected_count }
  | ApprovalStatus.Rejected =>
      { errors := errors ++
          [dev.id ++ ": REJECTED deviation still in registry — must be removed or the adapter must be fixed to match expected behavior"],
        warnings := st.warnings, seen_ids := seen_ids, scenario_owners := scenario_owners,
        approved_count := st.approved_count, proposed_count := st.proposed_count,
        not_deviation_count := st.not_deviation_count, rejected_count := st.rejected_count + 1 }

/-- `validate_registry` (`tests/deviations/validator.rs` lines 38-126),
generalized over the registry contents. -/
def validate_registry (reg : List Deviation) : ValidationResult :=
  let st := reg.foldl validateDev ⟨[], [], [], [], 0, 0, 0, 0⟩
  { errors := st.errors, warnings := st.warnings,
    approved_count := st.approved_count, proposed_count := st.proposed_count,
    not_deviation_count := st.not_deviation_count, rejected_count := st.rejected_count }

/-- `GateResult` from `tests/conformance/release_gate.rs`. -/
structure GateResult where
  passed : Bool
  failures : List String
  warnings : List String
  summary : String

/-- `evaluate` from `tests/conformance/release_gate.rs` (lines 28-104),
generalized over the registry.  The four gates push failures in source
order: validation errors, `Rejected` records, `Proposed` records, and
`Approved` records without linked scenarios; the gate passes iff no failure
was pushed. -/
def evaluate (reg : List Deviation) : GateResult :=
  let validation := validate_registry reg
  let failures :=
    (validation.errors.map (fun e => "Registry error: " ++ e))
    ++ ((reg.filter (fun d => d.status == ApprovalStatus.Rejected)).map
        (fun d => d.id ++ ": REJECTED — adapter must be fixed to match expected behavior ("
            ++ d.title ++ ")"))
    ++ ((reg.filter (fun d => d.status == ApprovalStatus.Proposed)).map
        (fun d => d.id ++ ": PROPOSED — requires governance decision before release ("
            ++ d.title ++ ")"))
    ++ ((reg.filter (fun d => d.status == ApprovalStatus.Approved)).filterMap
        (fun d =>
          if d.linked_scenarios.isEmpty then
            some (d.id ++ ": APPROVED deviation has no linked scenarios — cannot verify stability")
          else none))
  let passed := failures.isEmpty
  let summary := "Release gate " ++ (if passed then "PASSED" else "FAILED") ++ ": "
      ++ toString validation.approved_count ++ " approved, "
      ++ toString validation.proposed_count ++ " proposed, "
      ++ toString validation.not_deviation_count ++ " not-deviation, "
      ++ toString validation.rejected_count ++ " rejected, "
      ++ toString failures.length ++ " error(s)"
  { passed := passed, failures := failures, warnings := validation.warnings,
    summary := summary }

/-- `REGISTRY` entry `DEV-001` from `tests/deviations/registry.rs`. -/
def dev001 : Deviation :=
  { id := "DEV-001"
  , title := "column_type reports runtime value type, not declared schema type"
  , linked_scenarios := ["PAR-008", "PAR-014"]
  , status := ApprovalStatus.Approved
  , summary := "MetaData::column_type() returns runtime value type names (INTEGER, REAL, TEXT, BLOB, NULL) derived from libsql::ValueType, not declared schema types. Custom type aliases (BOOLEAN, DATETIME) are not exposed — only the 5 base storage classes."
  , user_impact := "Code matching specific type aliases (BOOLEAN, DATETIME) sees only base storage classes (INTEGER, TEXT, etc.). For empty result sets, type info is unavailable."
  , rationale := "The rbdc MetaData::column_type() trait contract does not specify whether declared or runtime types are returned. Turso\x27s native async API exposes value-level types via ValueType enum, not schema-level type declarations. This is inherent to the native API design." }

/-- `REGISTRY` entry `DEV-002` from `tests/deviations/registry.rs`. -/
def dev002 : Deviation :=
  { id := "DEV-002"
  , title := "Boolean values round-trip as integers"
  , linked_scenarios := ["PAR-007"]
  , status := ApprovalStatus.NotADeviation
  , summary := "Value::Bool(true) is encoded as INTEGER 1, read back as Value::I64(1). This matches the standard adapter convention."
  , user_impact := "None. Both Turso and other adapters behave identically."
  , rationale := "Investigation confirmed parity. Documented for awareness only." }

/-- `REGISTRY` entry `DEV-003` from `tests/deviations/registry.rs`. -/
def dev003 : Deviation :=
  { id := "DEV-003"
  , title := "JSON text decoding heuristic"
  , linked_scenarios := ["PAR-006"]
  , status := ApprovalStatus.NotADeviation
  , summary := "Text values matching is_json_string() (starts with \x7b/[ or equals \x27null\x27) are attempted as JSON parse. If parse fails, returned as String."
  , user_impact := "None. Heuristic matches standard adapter behavior."
  , rationale := "Investigation confirmed parity. Same heuristic implemented." }

/-- `REGISTRY` entry `DEV-004` from `tests/deviations/registry.rs`: the
`last_insert_id`-as-`U64` deviation, status `Proposed`. -/
def dev004 : Deviation :=
  { id := "DEV-004"
  , title := "last_insert_id stored as Value::U64"
  , linked_scenarios := ["PAR-010", "PAR-011"]
  , status := ApprovalStatus.Proposed
  , summary := "ExecResult.last_insert_id is Value::U64 (cast from i64 rowid). Other adapters may use Value::I64 or Value::U64 — the ExecResult type specifies Value, not a concrete integer type."
  , user_impact := "Code that pattern-matches specifically on Value::I64 for last_insert_id will not match. Should use numeric extraction methods instead."
  , rationale := "Requires governance decision. The rowid is conceptually unsigned (always positive), but i64 is the underlying storage type. Standardizing across adapters would be ideal but is outside this crate\x27s scope." }

/-- The static `REGISTRY` from `tests/deviations/registry.rs`. -/
def REGISTRY : List Deviation := [dev001, dev002, dev003, dev004]

/-! ## Timestamp (`src/types/timestamp.rs`) -/

/-- Modelled from the spec: `DateTime` is part of this repository but its
source is not under `src/` (only `types/timestamp.rs` is provided); the spec
says `Timestamp` "carries a signed millisecond count since the UNIX epoch",
so the wrapped `DateTime` is modelled at millisecond precision with
`from_timestamp_millis` / `unix_timestamp_millis` as the two conversions
`timestamp.rs` uses. -/
structure DateTime where
  millis : Int
deriving DecidableEq

/-- `DateTime::from_timestamp_millis`. -/
def DateTime.from_timestamp_millis (m : Int) : DateTime := ⟨m⟩

/-- `DateTime::unix_timestamp_millis`. -/
def DateTime.unix_timestamp_millis (dt : DateTime) : Int := dt.millis

/-- `Timestamp` from `src/types/timestamp.rs`: a newtype over `DateTime`. -/
structure Timestamp where
  dt : DateTime
deriving DecidableEq

/-- Rust `u64 as i64`: two's-complement reinterpretation. -/
def u64_to_i64 (n : Nat) : Int :=
  if n < 2 ^ 63 then (n : Int) else (n : Int) - 2 ^ 64

/-- Modelled from the spec: `rbs::Value::as_i64` (external `rbs` crate),
the numeric extraction used by `Timestamp::deserialize` on the `Ext`
payload; it extracts from the 64/32-bit integer variants. -/
def Value.as_i64 : Value → Option Int
  | Value.I64 n => some n
  | Value.U64 n => some (u64_to_i64 n)
  | Value.I32 n => some n
  | Value.U32 n => some (Int.ofNat n)
  | _ => none

/-- `From<Timestamp> for Value` (timestamp.rs lines 63-67):
`Value::Ext("Timestamp", Box::new(Value::I64(arg.0.unix_timestamp_millis())))`. -/
def timestamp_to_value (t : Timestamp) : Value :=
  Value.Ext "Timestamp" (Value.I64 t.dt.unix_timestamp_millis)

/-- `Timestamp::deserialize` (timestamp.rs lines 23-49) after the inner
`Value` has been recovered: accepts bare `I64`/`U64`/`I32`/`U32`
millisecond payloads and `Ext("Timestamp", inner)` with `inner.as_i64()`;
everything else errors with "warn type decode Json". -/
def Timestamp.deserialize (v : Value) : Except String Timestamp :=
  match v with
  | Value.I64 i => Except.ok ⟨DateTime.from_timestamp_millis i⟩
  | Value.U64 u => Except.ok ⟨DateTime.from_timestamp_millis (u64_to_i64 u)⟩
  | Value.I32 i => Except.ok ⟨DateTime.from_timestamp_millis i⟩
  | Value.U32 u => Except.ok ⟨DateTime.from_timestamp_millis (Int.ofNat u)⟩
  | Value.Ext tag inner =>
      if tag = "Timestamp" then
        match inner.as_i64 with
        | some i => Except.ok ⟨DateTime.from_timestamp_millis i⟩
        | none => Except.error "warn type decode Json"
      else Except.error "warn type decode Json"
  | _ => Except.error "warn type decode Json"

/-! ## Theorems -/

/-- Helper: `idxRange n k` lists exactly `k` indices. -/
theorem idxRange_length : ∀ (k n : Nat), (idxRange n k).length = k
  | 0, _ => rfl
  | k + 1, n => by simp [idxRange, idxRange_length k (n + 1)]

/-- Helper: the scan of `impl_exchange` substitutes the indices
`n, n+1, …` in order, one per unescaped `?`. -/
theorem exchange_renders (p : List Char) (n : Nat) (s : List Char) :
    impl_exchange p n s = renderWith p (idxRange n (countUnescaped s)) s := by
  induction n, s using impl_exchange.induct p with
  | case1 idx => rfl
  | case2 idx rest ih =>
      simp only [impl_exchange, countUnescaped, renderWith, ih]
  | case3 idx rest ih =>
      simp only [impl_exchange, countUnescaped, idxRange, renderWith, ih]
  | case4 idx c rest h1 h2 ih =>
      have hc : countUnescaped (c :: rest) = countUnescaped rest := by
        rw [countUnescaped.eq_def]
        split <;> simp_all
      have hf : impl_exchange p idx (c :: rest) = c :: impl_exchange p idx rest := by
        rw [impl_exchange.eq_def]
        split <;> simp_all
      have hr : ∀ is, renderWith p is (c :: rest) = c :: renderWith p is rest := by
        intro is
        rw [renderWith.eq_def]
        split <;> simp_all
      rw [hf, hc, hr, ih]

/-- **C1.** `impl_exchange` scans the SQL byte-by-byte with a counter
starting at `n`: `\?` emits a literal `?` consuming both bytes, an
unescaped `?` emits the prefix followed by the decimal counter value and
increments it, and every other byte is copied (all of which is the
definition of `renderWith`); the substituted indices are exactly
`n, n+1, …, n+k-1` in left-to-right order where `k` is the number of
unescaped `?` bytes. -/
theorem impl_exchange_substitutes_consecutive_indices
    (p : List Char) (n : Nat) (s : List Char) :
    impl_exchange p n s = renderWith p (idxRange n (countUnescaped s)) s ∧
    (idxRange n (countUnescaped s)).length = countUnescaped s :=
  ⟨exchange_renders p n s, idxRange_length (countUnescaped s) n⟩

/-- Helper: a string whose first character is not `U` is not `"UTC"`. -/
theorem ne_utc_of_head {c : Char} {l : List Char} (hc : c ≠ 'U') {s : String}
    (hs : s.data = c :: l) : s ≠ "UTC" := by
  intro he
  rw [he] at hs
  have h3 : ('U' : Char) :: ['T', 'C'] = c :: l := hs
  injection h3 with h4 _
  exact hc h4.symm

/-- **C8.** The PostgreSQL-family startup timezone formatter follows the
POSIX sign convention: offset `0` yields `"UTC"` (and nothing else does);
a positive offset (east of UTC) yields `"-HH:MM"` and a negative offset
yields `"+HH:MM"`, with hours and minutes computed from the absolute
offset in seconds and zero-padded to a width of two.  The hypotheses
restrict to the `i32` inputs on which the Rust `abs()` is defined
(`i32::MIN.abs()` panics). -/
theorem format_timezone_offset_posix (off : Int)
    (hlo : -(2 ^ 31) < off) (hhi : off < 2 ^ 31) :
    (format_timezone_offset off = "UTC" ↔ off = 0) ∧
    (0 < off → format_timezone_offset off =
      "-" ++ pad2 (off.natAbs / 3600) ++ ":" ++ pad2 (off.natAbs % 3600 / 60)) ∧
    (off < 0 → format_timezone_offset off =
      "+" ++ pad2 (off.natAbs / 3600) ++ ":" ++ pad2 (off.natAbs % 3600 / 60)) := by
  refine ⟨⟨fun h => ?_, fun h => by simp [format_timezone_offset, h]⟩,
    fun h => ?_, fun h => ?_⟩
  · by_contra hne
    rcases lt_or_gt_of_ne hne with hneg | hpos
    · have hform : format_timezone_offset off =
          "+" ++ (pad2 (off.natAbs / 3600) ++ ":" ++ pad2 (off.natAbs % 3600 / 60)) := by
        simp [format_timezone_offset, hne, hneg, String.append_assoc]
      have hdata : (format_timezone_offset off).data =
          '+' :: (pad2 (off.natAbs / 3600) ++ ":" ++ pad2 (off.natAbs % 3600 / 60)).data := by
        rw [hform, String.data_append]
        rfl
      exact ne_utc_of_head (by decide) hdata h
    · have hnl : ¬ off < 0 := by omega
      have hform : format_timezone_offset off =
          "-" ++ (pad2 (off.natAbs / 3600) ++ ":" ++ pad2 (off.natAbs % 3600 / 60)) := by
        simp [format_timezone_offset, hne, hnl, String.append_assoc]
      have hdata : (format_timezone_offset off).data =
          '-' :: (pad2 (off.natAbs / 3600) ++ ":" ++ pad2 (off.natAbs % 3600 / 60)).data := by
        rw [hform, String.data_append]
        rfl
      exact ne_utc_of_head (by decide) hdata h
  · have h0 : ¬ off = 0 := by omega
    have hnl : ¬ off < 0 := by omega
    simp [format_timezone_offset, h0, hnl]
  · have h0 : ¬ off = 0 := by omega
    simp [format_timezone_offset, h0, h]

/-- Witness for C8 at the source's own test inputs: UTC+08:00 (28800 s)
formats as `"-08:00"` and UTC-05:00 (-18000 s) as `"+05:00"`. -/
theorem format_timezone_offset_posix_witness :
    format_timezone_offset 28800 = "-08:00" ∧
    format_timezone_offset (-18000) = "+05:00" ∧
    format_timezone_offset 0 = "UTC" := by
  have h1 := format_timezone_offset_posix 28800 (by norm_num) (by norm_num)
  have h2 := format_timezone_offset_posix (-18000) (by norm_num) (by norm_num)
  have h3 := format_timezone_offset_posix 0 (by norm_num) (by norm_num)
  refine ⟨(h1.2.1 (by norm_num)).trans (by decide), (h2.2.2 (by norm_num)).trans (by decide),
    h3.1.mpr rfl⟩

/-- **C6.** `FastPool::get_timeout` special-cases a zero duration: when
capacity is available right now (`in_use < max_open`) the request proceeds
with the default 10-second window; otherwise it fails fast with the pool's
timeout error.  A nonzero duration is passed through unchanged. -/
theorem fastpool_get_timeout_zero (st : FastPoolState) :
    (FastPool.get_timeout_request st 0 = Except.error "Time out in the connection pool"
      ↔ st.max_open ≤ st.in_use) ∧
    (FastPool.get_timeout_request st 0 = Except.ok 10000 ↔ st.in_use < st.max_open) ∧
    (∀ d, d ≠ 0 → FastPool.get_timeout_request st d = Except.ok d) := by
  by_cases hlt : st.in_use < st.max_open
  · refine ⟨?_, ?_, ?_⟩
    · simp only [FastPool.get_timeout_request, if_pos rfl, if_pos hlt]
      constructor
      · intro h
        exact absurd h (by simp)
      · intro h
        omega
    · simp [FastPool.get_timeout_request, hlt]
    · intro d hd
      simp [FastPool.get_timeout_request, hd]
  · refine ⟨?_, ?_, ?_⟩
    · simp only [FastPool.get_timeout_request, if_pos rfl, if_neg hlt]
      constructor
      · intro _
        omega
      · intro _
        rfl
    · simp only [FastPool.get_timeout_request, if_pos rfl, if_neg hlt]
      constructor
      · intro h
        exact absurd h (by simp)
      · intro h
        exact absurd h hlt
    · intro d hd
      simp [FastPool.get_timeout_request, hd]

/-- Witness for C6: a saturated pool (`in_use = max_open = 1`) fails fast
at duration 0 and passes a nonzero duration through. -/
theorem fastpool_get_timeout_zero_witness :
    FastPool.get_timeout_request ⟨1, 1, 1, 0, 0, 0, 0⟩ 0 =
      Except.error "Time out in the connection pool" ∧
    FastPool.get_timeout_request ⟨1, 1, 1, 0, 0, 0, 0⟩ 5 = Except.ok 5 := by
  have h := fastpool_get_timeout_zero ⟨1, 1, 1, 0, 0, 0, 0⟩
  exact ⟨h.1.mpr (by norm_num), h.2.2 5 (by norm_num)⟩

/-- **C4 counterexample.** The `Connection::exec` implementation in
`rbdc-turso/src/connection/mod.rs` wraps the native last-insert rowid as
`Value::U64`, so at rows-affected 1 and rowid 5 the claim's `I64` form does
not hold. -/
theorem exec_mod_result_not_i64 :
    (exec_mod_result 1 5).last_insert_id ≠ Value.I64 5 := by
  have hv : (exec_mod_result 1 5).last_insert_id = Value.U64 (i64_to_u64 5) := rfl
  rw [hv]
  intro h
  exact Value.noConfusion h

/-- **C4 (amended).** For a successful exec on the Turso adapter's
`Connection` trait implementation (`connection/mod.rs`), the returned
`ExecResult` carries `rows_affected` equal to the native execute count and
`last_insert_id = U64(last_id as u64)` — the rowid reinterpreted as
unsigned (identity on nonnegative rowids, two's-complement wrap on negative
ones); the `I64` form of the claim is produced only by
`TursoQueryResult::to_exec_result`, which this trait implementation does
not use. -/
theorem exec_mod_result_spec (r : Nat) (id : Int)
    (hlo : -(2 ^ 63) ≤ id) (hhi : id < 2 ^ 63) :
    (exec_mod_result r id).rows_affected = r ∧
    (exec_mod_result r id).last_insert_id = Value.U64 (i64_to_u64 id) ∧
    (0 ≤ id → (i64_to_u64 id : Int) = id) ∧
    (id < 0 → (i64_to_u64 id : Int) = id + 2 ^ 64) ∧
    (TursoQueryResult.new r id).to_exec_result =
      { rows_affected := r, last_insert_id := Value.I64 id } := by
  have hpow : (2 : Int) ^ 64 = 18446744073709551616 := by norm_num
  have hp63 : (2 : Int) ^ 63 = 9223372036854775808 := by norm_num
  refine ⟨rfl, rfl, fun hpos => ?_, fun hneg => ?_, rfl⟩
  · simp only [i64_to_u64, hpow]
    rw [hp63] at hhi
    omega
  · simp only [i64_to_u64, hpow]
    rw [hp63] at hlo
    omega

/-- Witness for C4 (amended) at rows-affected 1, rowid 5: the trait exec
yields `U64 5` while `to_exec_result` yields `I64 5`. -/
theorem exec_mod_result_spec_witness :
    (exec_mod_result 1 5).last_insert_id = Value.U64 5 ∧
    (TursoQueryResult.new 1 5).to_exec_result.last_insert_id = Value.I64 5 := by
  have h := exec_mod_result_spec 1 5 (by norm_num) (by norm_num)
  have h5 : i64_to_u64 5 = 5 := by
    have := h.2.2.1 (by norm_num)
    omega
  refine ⟨?_, by rw [h.2.2.2.2]⟩
  rw [h.2.1, h5]

/-- **C10.** `Timestamp` round-trips through the host `Value`: converting a
`Timestamp` yields `Ext("Timestamp", I64(milliseconds since the UNIX
epoch))`, and deserializing that value back returns the original
`Timestamp` (the model carries the wrapped `DateTime` at millisecond
precision, so the identity is exact); bare `I64`/`U64`/`I32`/`U32`
millisecond payloads are also accepted. -/
theorem timestamp_value_roundtrip (t : Timestamp) (m : Int) (u k : Nat) :
    timestamp_to_value t = Value.Ext "Timestamp" (Value.I64 t.dt.unix_timestamp_millis) ∧
    Timestamp.deserialize (timestamp_to_value t) = Except.ok t ∧
    Timestamp.deserialize (Value.I64 m) = Except.ok ⟨DateTime.from_timestamp_millis m⟩ ∧
    Timestamp.deserialize (Value.U64 u) =
      Except.ok ⟨DateTime.from_timestamp_millis (u64_to_i64 u)⟩ ∧
    Timestamp.deserialize (Value.I32 m) = Except.ok ⟨DateTime.from_timestamp_millis m⟩ ∧
    Timestamp.deserialize (Value.U32 k) =
      Except.ok ⟨DateTime.from_timestamp_millis (Int.ofNat k)⟩ := by
  cases t with
  | mk d =>
      cases d with
      | mk mm => exact ⟨rfl, rfl, rfl, rfl, rfl, rfl⟩

/-- Helper: Rust `is_empty` holds exactly for the empty string. -/
theorem str_is_empty_iff (s : String) : str_is_empty s = true ↔ s = "" := by
  rw [str_is_empty, List.isEmpty_iff]
  constructor
  · intro h
    exact String.ext_iff.mpr h
  · intro h
    rw [h]

/-- Helper for C7: `has_auth_token` holds exactly for a present token that
is non-empty after trimming. -/
theorem has_auth_token_iff (o : TursoConnectOptions) :
    o.has_auth_token = true ↔ ∃ t, o.auth_token = some t ∧ t.trim ≠ "" := by
  cases ho : o.auth_token with
  | none => simp [TursoConnectOptions.has_auth_token, ho, Option.filter]
  | some t =>
      by_cases he : t.trim = ""
      · have hb : str_is_empty t.trim = true := (str_is_empty_iff _).mpr he
        simp [TursoConnectOptions.has_auth_token, ho, Option.filter, hb, he,
          (show str_is_empty "" = true from rfl)]
      · have hb : str_is_empty t.trim = false := by
          rcases hh : str_is_empty t.trim with _ | _
          · rfl
          · exact absurd ((str_is_empty_iff _).mp hh) he
        simp [TursoConnectOptions.has_auth_token, ho, Option.filter, hb, he]

/-- **C7.** Option validation rejects exactly the incomplete
configurations: `validate` succeeds iff the URL is non-empty and (for a
remote endpoint, i.e. a URL starting with `libsql://`, `https://` or
`http://`) the auth token is present and not all whitespace; an empty URL
and a token-less remote endpoint produce the two configuration errors; and
`connect_turso` propagates any validation error before the connection
attempt runs. -/
theorem options_validate_exact (o : TursoConnectOptions) :
    (o.validate = Except.ok () ↔
      (o.url ≠ "" ∧ (o.is_remote = true → ∃ t, o.auth_token = some t ∧ t.trim ≠ ""))) ∧
    (∀ (α : Type) (attempt : TursoConnectOptions → Except String α) (e : String),
      o.validate = Except.error e → connect_turso attempt o = Except.error e) ∧
    (o.url = "" → o.validate =
      Except.error "Turso URL must not be empty. Provide a valid libsql:// URL, file path, or :memory:") ∧
    (o.is_remote = true → o.has_auth_token = false → o.url ≠ "" → o.validate =
      Except.error "auth_token is required and must not be empty for remote Turso connections (libsql:// or https:// URLs)") := by
  refine ⟨?_, ?_, ?_, ?_⟩
  · by_cases hu : str_is_empty o.url = true
    · have hu' : o.url = "" := (str_is_empty_iff _).mp hu
      have hval : o.validate =
          Except.error "Turso URL must not be empty. Provide a valid libsql:// URL, file path, or :memory:" := by
        unfold TursoConnectOptions.validate
        rw [if_pos hu]
      rw [hval]
      simp [hu']
    · have hu' : o.url ≠ "" := fun h => hu ((str_is_empty_iff _).mpr h)
      by_cases hr : (o.is_remote && !o.has_auth_token) = true
      · have hval : o.validate =
            Except.error "auth_token is required and must not be empty for remote Turso connections (libsql:// or https:// URLs)" := by
          unfold TursoConnectOptions.validate
          rw [if_neg hu, if_pos hr]
        rw [hval]
        rw [Bool.and_eq_true, Bool.not_eq_true'] at hr
        constructor
        · intro h
          exact absurd h (by simp)
        · rintro ⟨-, himp⟩
          have hh := (has_auth_token_iff o).mpr (himp hr.1)
          rw [hh] at hr
          exact absurd hr.2 (by simp)
      · have hval : o.validate = Except.ok () := by
          unfold TursoConnectOptions.validate
          rw [if_neg hu, if_neg hr]
        rw [hval]
        refine ⟨fun _ => ⟨hu', fun hrem => (has_auth_token_iff o).mp ?_⟩, fun _ => rfl⟩
        have hh : (o.is_remote && !o.has_auth_token) = false := by
          rcases hb : (o.is_remote && !o.has_auth_token) with _ | _
          · rfl
          · exact absurd hb hr
        rw [hrem] at hh
        simpa using hh
  · intro α attempt e h
    simp [connect_turso, h]
  · intro h
    have hu : str_is_empty o.url = true := (str_is_empty_iff _).mpr h
    unfold TursoConnectOptions.validate
    rw [if_pos hu]
  · intro hrem hhas hurl
    have hu : ¬ str_is_empty o.url = true := fun hb => absurd ((str_is_empty_iff _).mp hb) hurl
    unfold TursoConnectOptions.validate
    rw [if_neg hu, if_pos (by rw [hrem, hhas]; rfl)]

/-- Witness for C7: a remote URL without a token is rejected with the
token error, an in-memory URL with no token validates, and an empty URL is
rejected with the URL error. -/
theorem options_validate_exact_witness :
    TursoConnectOptions.validate ⟨"libsql://db", none, false, false⟩ =
      Except.error "auth_token is required and must not be empty for remote Turso connections (libsql:// or https:// URLs)" ∧
    TursoConnectOptions.validate ⟨":memory:", none, true, false⟩ = Except.ok () ∧
    TursoConnectOptions.validate ⟨"", none, false, false⟩ =
      Except.error "Turso URL must not be empty. Provide a valid libsql:// URL, file path, or :memory:" := by
  have h1 := options_validate_exact ⟨"libsql://db", none, false, false⟩
  have h2 := options_validate_exact ⟨":memory:", none, true, false⟩
  have h3 := options_validate_exact ⟨"", none, false, false⟩
  refine ⟨h1.2.2.2 (by decide) (by decide) (by decide), ?_, h3.2.2.1 rfl⟩
  exact h2.1.mpr ⟨by decide, fun hr => absurd hr (by decide)⟩

/-- **C2.** `TursoRow::get` is bounds-checked and destructive: an index at
or beyond the column count errors with
`"column index {i} out of range (row has N columns)"`; an in-range,
still-present cell is returned and its slot becomes absent, so a second
`get` at the same index errors with a message containing
`"already consumed"`. -/
theorem row_get_destructive (jp : String → Option Value) (row : TursoRow) (i : Nat) :
    (row.values.length ≤ i →
      (TursoRow.get jp row i).1 = Except.error ("column index " ++ toString i
        ++ " out of range (row has " ++ toString row.values.length ++ " columns)")) ∧
    (∀ tv : TursoValue, row.values[i]? = some (some tv) →
      (TursoRow.get jp row i).1 = Except.ok (turso_value_to_rbs jp tv) ∧
      ((TursoRow.get jp row i).2).values[i]? = some none ∧
      (TursoRow.get jp ((TursoRow.get jp row i).2) i).1 =
        Except.error ("column index " ++ toString i ++ " already consumed") ∧
      ∃ a b : String,
        ("column index " ++ toString i ++ " already consumed") =
          a ++ "already consumed" ++ b) := by
  constructor
  · intro h
    unfold TursoRow.get
    rw [if_pos h]
  · intro tv hget
    have hlt : i < row.values.length := by
      by_contra hge
      rw [List.getElem?_eq_none (by omega)] at hget
      exact Option.noConfusion hget
    have hres : TursoRow.get jp row i =
        (Except.ok (turso_value_to_rbs jp tv),
         { row with values := row.values.set i none }) := by
      unfold TursoRow.get
      rw [if_neg (by omega), hget]
    have h2get : (TursoRow.get jp
        ({ row with values := row.values.set i none } : TursoRow) i).1 =
        Except.error ("column index " ++ toString i ++ " already consumed") := by
      unfold TursoRow.get
      rw [if_neg (by rw [List.length_set]; omega), List.getElem?_set_eq_of_lt none hlt]
    refine ⟨by rw [hres], ?_, ?_, ?_⟩
    · rw [hres]
      exact List.getElem?_set_eq_of_lt none hlt
    · rw [hres]
      exact h2get
    · refine ⟨"column index " ++ toString i ++ " ", "", ?_⟩
      rw [String.append_empty]
      simp only [String.append_assoc]
      rfl

/-- Witness for C2: on a one-column row holding `Integer 7`, `get 0`
returns `I64 7`, a second `get 0` reports the cell consumed, and `get 1` is
out of range. -/
theorem row_get_destructive_witness :
    (TursoRow.get (fun _ => none)
        ⟨[some ⟨LibsqlValue.Integer 7, TursoDataType.Integer⟩], [], false⟩ 0).1 =
      Except.ok (Value.I64 7) ∧
    (TursoRow.get (fun _ => none)
        ((TursoRow.get (fun _ => none)
          ⟨[some ⟨LibsqlValue.Integer 7, TursoDataType.Integer⟩], [], false⟩ 0).2) 0).1 =
      Except.error "column index 0 already consumed" ∧
    (TursoRow.get (fun _ => none)
        ⟨[some ⟨LibsqlValue.Integer 7, TursoDataType.Integer⟩], [], false⟩ 1).1 =
      Except.error "column index 1 out of range (row has 1 columns)" := by
  have h := row_get_destructive (fun _ => none)
    ⟨[some ⟨LibsqlValue.Integer 7, TursoDataType.Integer⟩], [], false⟩ 0
  have h2 := (h.2 ⟨LibsqlValue.Integer 7, TursoDataType.Integer⟩ rfl)
  have h3 := row_get_destructive (fun _ => none)
    ⟨[some ⟨LibsqlValue.Integer 7, TursoDataType.Integer⟩], [], false⟩ 1
  refine ⟨h2.1.trans rfl, h2.2.2.1.trans (congrArg Except.error (by decide)),
    (h3.1 (by decide)).trans (congrArg Except.error (by decide))⟩

/-- The failing input of claim C3: a parse function behaving like
`serde_json` on the object text `{"k":"v"}`, and a row holding that TEXT
cell with `json_detect = false`. -/
def jpJson : String → Option Value := fun s =>
  if s == "\x7b\"k\":\"v\"\x7d" then
    some (Value.Map [(Value.String "k", Value.String "v")])
  else none

/-- The row of the C3 failing input: one TEXT cell `{"k":"v"}`,
`json_detect` off. -/
def rowJson : TursoRow :=
  ⟨[some ⟨LibsqlValue.Text "\x7b\"k\":\"v\"\x7d", TursoDataType.Text⟩], [], false⟩

/-- **C3 (code bug).** In the code as written, the JSON heuristic is *not*
gated by `json_detect`: `TursoRow::get`'s conversion (`turso_value_to_rbs`
as defined in `value.rs`) produces the same result whatever the row's
`json_detect` flag, and on the failing input — a JSON-shaped TEXT cell
`{"k":"v"}` in a row with `json_detect = false` (the default) — `get`
returns the decoded `Map`, not the `String` the claim (and the rest of the
crate: `options/mod.rs` docs, `types/str.rs` `decode_text` and its tests)
specifies.  `decode_text` itself does implement the claimed opt-in
behavior. -/
theorem json_detect_flag_ignored :
    (∀ (jp : String → Option Value) (vals : List (Option TursoValue))
        (cols : List TursoColumn) (b₁ b₂ : Bool) (i : Nat),
      (TursoRow.get jp ⟨vals, cols, b₁⟩ i).1 = (TursoRow.get jp ⟨vals, cols, b₂⟩ i).1) ∧
    (∀ (jp : String → Option Value) (s : String), decode_text jp s false = Value.String s) ∧
    (TursoRow.get jpJson rowJson 0).1 =
      Except.ok (Value.Map [(Value.String "k", Value.String "v")]) ∧
    rowJson.json_detect = false := by
  refine ⟨fun jp vals cols b₁ b₂ i => ?_, fun jp s => rfl, rfl, rfl⟩
  by_cases hc : vals.length ≤ i
  · simp [TursoRow.get, hc]
  · cases hv : vals[i]? with
    | none => simp [TursoRow.get, hc, hv]
    | some o =>
        cases o with
        | none => simp [TursoRow.get, hc, hv]
        | some tv => simp [TursoRow.get, hc, hv]

/-- **C9.** A TEXT value is JSON-shaped iff it equals `"null"` exactly, or
starts with `{` and ends with `}`, or starts with `[` and ends with `]`
(no whitespace trimming); when a JSON-shaped string fails to parse, the
conversion falls back to the original `String` value unchanged, and a
non-JSON-shaped string is always returned unchanged — decoding never
fails. -/
theorem is_json_string_exact (jp : String → Option Value) (s : String)
    (dt : TursoDataType) :
    (is_json_string s = true ↔
      (s = "null" ∨ (starts_with s "\x7b" = true ∧ ends_with s "\x7d" = true) ∨
        (starts_with s "[" = true ∧ ends_with s "]" = true))) ∧
    (jp s = none → turso_value_to_rbs jp ⟨LibsqlValue.Text s, dt⟩ = Value.String s) ∧
    (is_json_string s = false → turso_value_to_rbs jp ⟨LibsqlValue.Text s, dt⟩ = Value.String s) := by
  refine ⟨?_, ?_, ?_⟩
  · simp [is_json_string, Bool.or_eq_true, Bool.and_eq_true, beq_iff_eq, or_assoc]
  · intro hnone
    by_cases hj : is_json_string s
    · simp [turso_value_to_rbs, hj, hnone]
    · simp [turso_value_to_rbs, hj]
  · intro h
    simp [turso_value_to_rbs, h]

/-- Witness for C9: the whitespace-padded object text `" {} "` is not
JSON-shaped (no trimming), so it converts to the unchanged `String`; and a
JSON-shaped string whose parse fails also converts to the unchanged
`String`. -/
theorem is_json_string_exact_witness :
    turso_value_to_rbs (fun _ => none) ⟨LibsqlValue.Text " \x7b\x7d ", TursoDataType.Text⟩ =
      Value.String " \x7b\x7d " ∧
    is_json_string " \x7b\x7d " = false ∧
    turso_value_to_rbs (fun _ => none) ⟨LibsqlValue.Text "\x7bnot json\x7d", TursoDataType.Text⟩ =
      Value.String "\x7bnot json\x7d" ∧
    is_json_string "\x7bnot json\x7d" = true := by
  have h1 := is_json_string_exact (fun _ => none) " \x7b\x7d " TursoDataType.Text
  have h2 := is_json_string_exact (fun _ => none) "\x7bnot json\x7d" TursoDataType.Text
  exact ⟨h1.2.1 rfl, by decide, h2.2.1 rfl, by decide⟩

/-- **C5.** The release gate passes iff the registry validator reports no
errors, no record is `Rejected`, no record is `Proposed`, and every
`Approved` record has at least one linked scenario.  In particular, the
registry `[DEV-001 (Approved), DEV-004 (Proposed)]` fails the gate with a
failure naming `DEV-004`, while removing the proposed record or approving
it makes the gate pass. -/
theorem release_gate_exact (reg : List Deviation) :
    ((evaluate reg).passed = true ↔
      ((validate_registry reg).errors = [] ∧
       (∀ d ∈ reg, d.status ≠ ApprovalStatus.Rejected) ∧
       (∀ d ∈ reg, d.status ≠ ApprovalStatus.Proposed) ∧
       (∀ d ∈ reg, d.status = ApprovalStatus.Approved → d.linked_scenarios ≠ []))) ∧
    (evaluate [dev001, dev004]).passed = false ∧
    ((dev004.id ++ ": PROPOSED — requires governance decision before release ("
        ++ dev004.title ++ ")") ∈ (evaluate [dev001, dev004]).failures) ∧
    (evaluate [dev001]).passed = true ∧
    (evaluate [dev001, { dev004 with status := ApprovalStatus.Approved }]).passed = true := by
  refine ⟨?_, by decide, by decide, by decide, by decide⟩
  simp only [evaluate, List.isEmpty_iff, List.append_eq_nil, List.map_eq_nil_iff,
    List.filter_eq_nil_iff, List.filterMap_eq_nil_iff, List.mem_filter, Bool.and_eq_true,
    beq_iff_eq, ite_eq_right_iff]
  constructor
  · rintro ⟨⟨⟨he, hrej⟩, hprop⟩, happ⟩
    refine ⟨he, fun d hd => by simpa using hrej d hd, fun d hd => by simpa using hprop d hd,
      fun d hd hst hnil => ?_⟩
    have := happ d ⟨hd, hst⟩ (by simp [hnil])
    simp at this
  · rintro ⟨he, hrej, hprop, happ⟩
    refine ⟨⟨⟨he, fun d hd => by simpa using hrej d hd⟩,
      fun d hd => by simpa using hprop d hd⟩, fun d hd hemp => ?_⟩
    exact absurd hemp (happ d hd.1 hd.2)

/-- Witness for C5: the Approved+Proposed registry fails the gate and the
Approved-only registry passes it. -/
theorem release_gate_exact_witness :
    (evaluate [dev001, dev004]).passed = false ∧ (evaluate [dev001]).passed = true :=
  ⟨(release_gate_exact [dev001, dev004]).2.1, (release_gate_exact [dev001]).2.2.2.1⟩

end RbdcSpec
